import Mathlib

/-!
Verification development for the guest-list manager (src/app.py, src/setup_db.py).

The data-access layer of app.py is shallowly embedded: the SQLite table
invitados becomes a list of records plus the AUTOINCREMENT sequence counter,
timestamps become natural numbers supplied as an explicit clock argument,
and each Python store function becomes a Lean function.  Python functions
that can signal errors are modelled with Except; the functions in app.py
never raise the application-level errors named by the spec, so their
embeddings always return Except.ok, mirroring the source.  The SQL LIKE
operator and the update trigger trg_invitados_updated_at are embedded from
their SQL text (SQLite semantics: percent and underscore wildcards, ASCII
case folding, non-recursive triggers by default).
-/

namespace Fiesta

/-- Whitespace characters stripped by Python str.strip (ASCII subset). -/
def pyWS (c : Char) : Bool :=
  c == ' ' || c == '\t' || c == '\n' || c == '\r' || c == Char.ofNat 11 || c == Char.ofNat 12

/-- Python str.strip: remove leading and trailing whitespace. -/
def pyStrip (s : String) : String :=
  String.mk (((s.data.dropWhile pyWS).reverse.dropWhile pyWS).reverse)

/-- One row of the invitados table (src/setup_db.py lines 29-39).
asistira is the stored INTEGER (0 or 1); timestamps are abstract instants. -/
structure Invitado where
  id : Nat
  nombre : String
  apellidos : String
  telefono : Option String
  correo : Option String
  asistira : Nat
  acompanantes : Nat
  created_at : Nat
  updated_at : Nat
deriving DecidableEq, Repr

/-- Database state: the rows plus the AUTOINCREMENT sequence counter
(SQLite never reuses an id after a delete). -/
structure DB where
  rows : List Invitado
  seq : Nat
deriving DecidableEq, Repr

/-- The error kinds named by the spec (section 7). -/
inductive AppError where
  | validationError
  | notFound
  | storageUnavailable
deriving DecidableEq, Repr

deriving instance DecidableEq for Except

/-- The Python pattern [x.strip() if x else None] applied to an optional
text field in insertar_invitado and actualizar_invitado (src/app.py
lines 57-58 and 68-69): None and the empty string map to NULL, any other
string is stripped and stored. -/
def pyOptStrip (t : Option String) : Option String :=
  match t with
  | none => none
  | some s => if s = "" then none else some (pyStrip s)

/-- Python int() applied to a bool (src/app.py line 58: int(asistira)). -/
def boolToInt (b : Bool) : Nat := if b then 1 else 0

/-- insertar_invitado (src/app.py lines 51-59).  The INSERT stores the
stripped names, the optional fields through the strip-or-NULL pattern, and
SQLite fills id from the sequence and both timestamps from
CURRENT_TIMESTAMP.  The Python function has no return statement, so its
value is None: modelled as the Option Nat component, always none. -/
def insertar_invitado (now : Nat) (db : DB) (nombre apellidos : String)
    (telefono correo : Option String) (asistira : Bool) (acompanantes : Nat) :
    Except AppError (DB × Option Nat) :=
  let newId := db.seq + 1
  let row : Invitado :=
    ⟨newId, pyStrip nombre, pyStrip apellidos, pyOptStrip telefono, pyOptStrip correo,
     boolToInt asistira, acompanantes, now, now⟩
  Except.ok (⟨db.rows ++ [row], newId⟩, none)

/-- The SET clause of the UPDATE in actualizar_invitado (src/app.py
lines 64-69): replaces the six editable columns, touching neither id nor
created_at nor updated_at. -/
def setCampos (nombre apellidos : String) (telefono correo : Option String)
    (asistira : Bool) (acompanantes : Nat) (r : Invitado) : Invitado :=
  { r with
    nombre := pyStrip nombre
    apellidos := pyStrip apellidos
    telefono := pyOptStrip telefono
    correo := pyOptStrip correo
    asistira := boolToInt asistira
    acompanantes := acompanantes }

/-- An SQL row update followed by the trigger trg_invitados_updated_at
(src/setup_db.py lines 48-56, repeated in init_db in src/app.py):
AFTER UPDATE, WHEN NEW.updated_at = OLD.updated_at, set updated_at to
CURRENT_TIMESTAMP.  SQLite runs with recursive_triggers off by default, so
the assignment inside the trigger body does not fire the trigger again:
the timestamp is written exactly once. -/
def sqlUpdateRow (now : Nat) (r : Invitado) (f : Invitado → Invitado) : Invitado :=
  let n := f r
  if n.updated_at = r.updated_at then { n with updated_at := now } else n

/-- actualizar_invitado (src/app.py lines 61-70): UPDATE ... WHERE id = ?.
The rowcount is never inspected and no exception is raised, so the result
is always Except.ok, whether or not any row matched. -/
def actualizar_invitado (now : Nat) (db : DB) (id_ : Nat) (nombre apellidos : String)
    (telefono correo : Option String) (asistira : Bool) (acompanantes : Nat) :
    Except AppError DB :=
  Except.ok ⟨db.rows.map (fun r =>
    if r.id = id_ then
      sqlUpdateRow now r (setCampos nombre apellidos telefono correo asistira acompanantes)
    else r), db.seq⟩

/-- eliminar_invitado (src/app.py lines 72-76): DELETE FROM invitados
WHERE id = ?.  The rowcount is never inspected, so the result is always
Except.ok, whether or not any row matched. -/
def eliminar_invitado (db : DB) (id_ : Nat) : Except AppError DB :=
  Except.ok ⟨db.rows.filter (fun r => r.id != id_), db.seq⟩

/-- Lower-case an ASCII letter, as SQLite LIKE does when comparing. -/
def lowerAscii (c : Char) : Char :=
  if c.toNat ≥ 65 ∧ c.toNat ≤ 90 then Char.ofNat (c.toNat + 32) else c

/-- SQLite LIKE pattern matching: percent matches any sequence, underscore
matches any single character, other characters compare after ASCII case
folding.  Fuel-indexed so that the recursion is structural; the fuel
supplied by likeMatch always suffices because every step shortens the
pattern or the text. -/
def likeMatchF : Nat → List Char → List Char → Bool
  | 0, _, _ => false
  | _ + 1, [], s => s.isEmpty
  | fuel + 1, p :: ps, [] => p == '%' && likeMatchF fuel ps []
  | fuel + 1, p :: ps, c :: cs =>
    if p == '%' then likeMatchF fuel ps (c :: cs) || likeMatchF fuel (p :: ps) cs
    else if p == '_' then likeMatchF fuel ps cs
    else lowerAscii p == lowerAscii c && likeMatchF fuel ps cs

/-- SQLite: text LIKE pattern. -/
def likeMatch (pat s : String) : Bool :=
  likeMatchF (pat.data.length + s.data.length + 1) pat.data s.data

/-- An SQL column LIKE comparison: a NULL column never matches
(the WHERE clause treats the resulting NULL as not selected). -/
def fieldLike (pat : String) (f : Option String) : Bool :=
  match f with
  | none => false
  | some s => likeMatch pat s

/-- The pattern built in listar_invitados (src/app.py line 80): the percent
wildcard alone when the filter text is empty, otherwise the stripped filter
text between two percent wildcards. -/
def likePattern (filtro_texto : String) : String :=
  if filtro_texto = "" then "%" else "%" ++ pyStrip filtro_texto ++ "%"

/-- The OR of the four LIKE comparisons in the WHERE clause of
listar_invitados (src/app.py line 81). -/
def rowMatches (filtro_texto : String) (r : Invitado) : Bool :=
  let pat := likePattern filtro_texto
  fieldLike pat (some r.nombre) || fieldLike pat (some r.apellidos) ||
    fieldLike pat r.telefono || fieldLike pat r.correo

/-- The ORDER BY of listar_invitados (src/app.py line 89):
apellidos ascending, then nombre ascending, then id descending. -/
def rowLE (a b : Invitado) : Prop :=
  a.apellidos < b.apellidos ∨
    (a.apellidos = b.apellidos ∧
      (a.nombre < b.nombre ∨ (a.nombre = b.nombre ∧ b.id ≤ a.id)))

instance : DecidableRel rowLE := fun a b => by
  unfold rowLE; infer_instance

instance : IsTrans Invitado rowLE := by
  constructor
  intro a b c hab hbc
  rcases hab with h1 | ⟨e1, h1⟩
  · rcases hbc with h2 | ⟨e2, h2⟩
    · exact Or.inl (lt_trans h1 h2)
    · exact Or.inl (e2 ▸ h1)
  · rcases hbc with h2 | ⟨e2, h2⟩
    · exact Or.inl (e1 ▸ h2)
    · refine Or.inr ⟨e1.trans e2, ?_⟩
      rcases h1 with h1 | ⟨f1, h1⟩
      · rcases h2 with h2 | ⟨f2, h2⟩
        · exact Or.inl (lt_trans h1 h2)
        · exact Or.inl (f2 ▸ h1)
      · rcases h2 with h2 | ⟨f2, h2⟩
        · exact Or.inl (f1 ▸ h2)
        · exact Or.inr ⟨f1.trans f2, Nat.le_trans h2 h1⟩

instance : IsTotal Invitado rowLE := by
  constructor
  intro a b
  rcases lt_trichotomy a.apellidos b.apellidos with h | h | h
  · exact Or.inl (Or.inl h)
  · rcases lt_trichotomy a.nombre b.nombre with g | g | g
    · exact Or.inl (Or.inr ⟨h, Or.inl g⟩)
    · rcases Nat.le_total b.id a.id with l | l
      · exact Or.inl (Or.inr ⟨h, Or.inr ⟨g, l⟩⟩)
      · exact Or.inr (Or.inr ⟨h.symm, Or.inr ⟨g.symm, l⟩⟩)
    · exact Or.inr (Or.inr ⟨h.symm, Or.inl g⟩)
  · exact Or.inr (Or.inl h)

/-- listar_invitados (src/app.py lines 78-92): SELECT with the compound
LIKE filter, optionally AND asistira = 1, ORDER BY apellidos, nombre,
id DESC. -/
def listar_invitados (db : DB) (filtro_texto : String) (solo_confirmados : Bool) :
    List Invitado :=
  List.insertionSort rowLE
    (db.rows.filter (fun r =>
      rowMatches filtro_texto r && (!solo_confirmados || r.asistira == 1)))

/-- SQL SUM aggregate: NULL on an empty row set, otherwise the sum. -/
def sqlSum (l : List Nat) : Option Nat :=
  if l.isEmpty then none else some l.sum

/-- contar_totales (src/app.py lines 94-100): COUNT of all rows, SUM of a
0-or-1 CASE for asistira = 1, COALESCE of the SUM of acompanantes where
asistira = 1; each component then passes through the Python [x or 0]
idiom, which turns a NULL (None) aggregate into 0. -/
def contar_totales (db : DB) : Nat × Nat × Nat :=
  let total := db.rows.length
  let confirmados := sqlSum (db.rows.map (fun r => if r.asistira = 1 then 1 else 0))
  let acomp := (sqlSum (db.rows.map
    (fun r => if r.asistira = 1 then r.acompanantes else 0))).getD 0
  (total, confirmados.getD 0, acomp)

/-- The form submission handler of the sidebar (src/app.py lines 122-127):
the UI rejects the input, storing nothing, when either required name strips
to the empty string; otherwise it calls insertar_invitado.  Returns the
resulting state and the error shown to the user, if any. -/
def form_alta (now : Nat) (db : DB) (nombre apellidos telefono correo : String)
    (asistira : Bool) (acompanantes : Nat) : DB × Option AppError :=
  if pyStrip nombre = "" ∨ pyStrip apellidos = "" then
    (db, some AppError.validationError)
  else
    match insertar_invitado now db nombre apellidos (some telefono) (some correo)
      asistira acompanantes with
    | Except.ok (db2, _) => (db2, none)
    | Except.error e => (db, some e)

/-- Substring predicate written from the words of the spec, for the
refinement comparison in the filter claim: the filter is a case-insensitive
substring of one of the four text fields, an absent field never matches,
and the empty filter matches every row.  Case folding is ASCII, matching
the collation the store uses. -/
def ciInfix (n h : List Char) : Bool :=
  match h with
  | [] => n.isEmpty
  | _ :: t => n.isPrefixOf h || ciInfix n t

/-- Spec-side row filter: case-insensitive substring across the four text
attributes, empty filter matches all. -/
def specRowMatch (f : String) (r : Invitado) : Bool :=
  let needle := f.data.map lowerAscii
  let inField : Option String → Bool := fun fo =>
    match fo with
    | none => false
    | some s => ciInfix needle (s.data.map lowerAscii)
  f == "" || inField (some r.nombre) || inField (some r.apellidos) ||
    inField r.telefono || inField r.correo

/-- The empty database state. -/
def dbEmpty : DB := ⟨[], 0⟩

/-- A one-row state used by concrete witnesses and counterexamples. -/
def rowAna : Invitado := ⟨1, "Ana", "Gomez", none, none, 0, 0, 0, 0⟩

/-- Database holding exactly rowAna. -/
def dbAna : DB := ⟨[rowAna], 1⟩

/-- pyOptStrip stores NULL exactly for an absent field or the exactly
empty string; a whitespace-only string survives as the empty string,
because the Python code tests truthiness before stripping. -/
theorem pyOptStrip_eq_none_iff (t : Option String) :
    pyOptStrip t = none ↔ t = none ∨ t = some "" := by
  cases t with
  | none => simp [pyOptStrip]
  | some s =>
    by_cases hs : s = "" <;> simp [pyOptStrip, hs]

/-- The Python [aggregate or 0] idiom on an SQL SUM equals the plain sum. -/
theorem sqlSum_getD (l : List Nat) : (sqlSum l).getD 0 = l.sum := by
  cases l <;> simp [sqlSum]

/-- The 0-or-1 CASE sum counts the rows with asistira = 1. -/
theorem sum_case_count (l : List Invitado) :
    (l.map (fun r => if r.asistira = 1 then 1 else 0)).sum =
      (l.filter (fun r => r.asistira == 1)).length := by
  induction l with
  | nil => simp
  | cons a t ih =>
    by_cases h : a.asistira = 1 <;>
      simp [List.filter_cons, h, ih, Nat.add_comm]

/-- The guarded CASE sum adds acompanantes over the rows with
asistira = 1. -/
theorem sum_case_acomp (l : List Invitado) :
    (l.map (fun r => if r.asistira = 1 then r.acompanantes else 0)).sum =
      ((l.filter (fun r => r.asistira == 1)).map Invitado.acompanantes).sum := by
  induction l with
  | nil => simp
  | cons a t ih =>
    by_cases h : a.asistira = 1 <;>
      simp [List.filter_cons, h, ih]

/-- A lone percent wildcard matches any text, given enough fuel. -/
theorem likeMatchF_percent (l : List Char) (fuel : Nat) (h : l.length + 2 ≤ fuel) :
    likeMatchF fuel [Char.ofNat 37] l = true := by
  induction l generalizing fuel with
  | nil =>
    match fuel, h with
    | f + 2, _ => simp [likeMatchF]
  | cons c cs ih =>
    match fuel, h with
    | f + 1, h =>
      have hf : cs.length + 2 ≤ f := by
        simp only [List.length_cons] at h; omega
      simp [likeMatchF, ih f hf]

/-- The pattern built from the empty filter matches any text. -/
theorem likeMatch_percent (s : String) : likeMatch "%" s = true := by
  have hd : ("%" : String).data = [Char.ofNat 37] := rfl
  unfold likeMatch
  rw [hd]
  exact likeMatchF_percent s.data _ (by simp; omega)

/-- The SET clause of the UPDATE does not touch updated_at. -/
theorem setCampos_updated_at (n a : String) (t c : Option String) (b : Bool)
    (k : Nat) (r : Invitado) :
    (setCampos n a t c b k r).updated_at = r.updated_at := rfl

/-- After an UPDATE issued by actualizar_invitado, the trigger fires and
the row carries the current time. -/
theorem sqlUpdateRow_setCampos_updated_at (now : Nat) (n a : String)
    (t c : Option String) (b : Bool) (k : Nat) (r : Invitado) :
    (sqlUpdateRow now r (setCampos n a t c b k)).updated_at = now := by
  unfold sqlUpdateRow
  rw [if_pos (setCampos_updated_at n a t c b k r)]

/-- Neither the SET clause nor the trigger changes id. -/
theorem sqlUpdateRow_setCampos_id (now : Nat) (n a : String)
    (t c : Option String) (b : Bool) (k : Nat) (r : Invitado) :
    (sqlUpdateRow now r (setCampos n a t c b k)).id = r.id := by
  unfold sqlUpdateRow
  rw [if_pos (setCampos_updated_at n a t c b k r)]
  rfl

/-- Neither the SET clause nor the trigger changes created_at. -/
theorem sqlUpdateRow_setCampos_created_at (now : Nat) (n a : String)
    (t c : Option String) (b : Bool) (k : Nat) (r : Invitado) :
    (sqlUpdateRow now r (setCampos n a t c b k)).created_at = r.created_at := by
  unfold sqlUpdateRow
  rw [if_pos (setCampos_updated_at n a t c b k r)]
  rfl

/-- C1 counterexample: updating id 1 on the empty table returns plain
success with the table unchanged; it does not signal NotFound. -/
theorem actualizar_absent_noop_cex :
    actualizar_invitado 5 dbEmpty 1 "Ana" "Perez" none none false 0 =
      Except.ok dbEmpty ∧
    actualizar_invitado 5 dbEmpty 1 "Ana" "Perez" none none false 0 ≠
      Except.error AppError.notFound := by
  exact ⟨by decide, by decide⟩

/-- C1 (amended): for every id that matches no stored row,
actualizar_invitado succeeds as a no-op, leaving the table unchanged; it
never signals NotFound because the rowcount is not inspected. -/
theorem actualizar_invitado_absent_id (now : Nat) (db : DB) (id_ : Nat)
    (n a : String) (t c : Option String) (b : Bool) (k : Nat)
    (h : ∀ r ∈ db.rows, r.id ≠ id_) :
    actualizar_invitado now db id_ n a t c b k = Except.ok db := by
  have hmap : db.rows.map (fun r =>
      if r.id = id_ then sqlUpdateRow now r (setCampos n a t c b k) else r) = db.rows := by
    rw [List.map_congr_left (fun r hr => if_neg (h r hr))]
    exact db.rows.map_id'
  unfold actualizar_invitado
  rw [hmap]

/-- C1 witness: a concrete absent id on a one-row table. -/
theorem actualizar_invitado_absent_id_witness :
    actualizar_invitado 7 dbAna 2 "Zoe" "Diaz" none none true 1 = Except.ok dbAna :=
  actualizar_invitado_absent_id 7 dbAna 2 "Zoe" "Diaz" none none true 1 (by decide)

/-- C2 counterexample: deleting the only row and then deleting the same id
again makes the second call return plain success, not NotFound. -/
theorem eliminar_twice_noop_cex :
    eliminar_invitado dbAna 1 = Except.ok (⟨[], 1⟩ : DB) ∧
    eliminar_invitado ⟨[], 1⟩ 1 = Except.ok (⟨[], 1⟩ : DB) ∧
    eliminar_invitado ⟨[], 1⟩ 1 ≠ Except.error AppError.notFound := by
  exact ⟨by decide, by decide, by decide⟩

/-- C2 (amended): for every id that matches no stored row, including an id
already removed by an earlier delete, eliminar_invitado succeeds silently
as a no-op; it never signals NotFound because the rowcount is not
inspected. -/
theorem eliminar_invitado_absent_id (db : DB) (id_ : Nat)
    (h : ∀ r ∈ db.rows, r.id ≠ id_) :
    eliminar_invitado db id_ = Except.ok db := by
  have hfil : db.rows.filter (fun r => r.id != id_) = db.rows := by
    refine List.filter_eq_self.mpr (fun r hr => ?_)
    simpa using h r hr
  unfold eliminar_invitado
  rw [hfil]

/-- C2 witness: a concrete absent id on a one-row table. -/
theorem eliminar_invitado_absent_id_witness :
    eliminar_invitado dbAna 2 = Except.ok dbAna :=
  eliminar_invitado_absent_id dbAna 2 (by decide)

/-- C3 counterexample: with a first name that strips to empty,
insertar_invitado succeeds and stores a row whose name is the empty
string; it neither raises ValidationError nor refuses the row. -/
theorem insertar_empty_nombre_cex :
    insertar_invitado 0 dbEmpty " " "Gomez" none none false 0 =
      Except.ok (⟨[⟨1, "", "Gomez", none, none, 0, 0, 0, 0⟩], 1⟩, none) := by
  decide

/-- C3 (amended): insertar_invitado itself performs no validation: when
the first name or the last name strips to empty it still stores a row,
with the stripped (hence empty) string as that name.  The guard lives in
the form handler, which signals the validation error and leaves the table
untouched without calling insertar_invitado. -/
theorem insertar_sin_validacion_form_guard
    (now : Nat) (db : DB) (nombre apellidos telefono correo : String)
    (b : Bool) (k : Nat) (db2 : DB) (ret : Option Nat)
    (h : pyStrip nombre = "" ∨ pyStrip apellidos = "")
    (h2 : insertar_invitado now db nombre apellidos (some telefono) (some correo) b k =
      Except.ok (db2, ret)) :
    db2.rows.length = db.rows.length + 1 ∧
    (db2.rows.getLast?).map Invitado.nombre = some (pyStrip nombre) ∧
    (db2.rows.getLast?).map Invitado.apellidos = some (pyStrip apellidos) ∧
    form_alta now db nombre apellidos telefono correo b k =
      (db, some AppError.validationError) := by
  unfold insertar_invitado at h2
  simp only [Except.ok.injEq, Prod.mk.injEq] at h2
  obtain ⟨hdb, hret⟩ := h2
  subst hdb
  refine ⟨by simp, ?_, ?_, ?_⟩
  · simp [List.getLast?_concat]
  · simp [List.getLast?_concat]
  · unfold form_alta
    rw [if_pos h]

/-- C3 witness: a concrete last name that strips to the empty string. -/
theorem insertar_sin_validacion_form_guard_witness :
    (⟨[⟨1, "Ana", "", none, none, 0, 0, 2, 2⟩], 1⟩ : DB).rows.length =
      dbEmpty.rows.length + 1 ∧
    ((⟨[⟨1, "Ana", "", none, none, 0, 0, 2, 2⟩], 1⟩ : DB).rows.getLast?).map
      Invitado.nombre = some (pyStrip "Ana") ∧
    ((⟨[⟨1, "Ana", "", none, none, 0, 0, 2, 2⟩], 1⟩ : DB).rows.getLast?).map
      Invitado.apellidos = some (pyStrip " ") ∧
    form_alta 2 dbEmpty "Ana" " " "" "" false 0 =
      (dbEmpty, some AppError.validationError) :=
  insertar_sin_validacion_form_guard 2 dbEmpty "Ana" " " "" "" false 0
    ⟨[⟨1, "Ana", "", none, none, 0, 0, 2, 2⟩], 1⟩ none (Or.inr (by decide)) (by decide)

/-- C4 counterexample: a valid insert stores a row with id 1, yet the
function returns None (modelled: the returned Option Nat is none), not the
assigned id. -/
theorem insertar_return_none_cex :
    insertar_invitado 0 dbEmpty "Ana" "Perez" none none false 0 =
      Except.ok (⟨[⟨1, "Ana", "Perez", none, none, 0, 0, 0, 0⟩], 1⟩, none) := by
  decide

/-- C4 (amended): insertar_invitado creates one row and assigns it the next
sequence id, but returns no value (Python None): the assigned id is not
handed back to the caller. -/
theorem insertar_asigna_id_sin_retorno
    (now : Nat) (db : DB) (n a : String) (t c : Option String) (b : Bool) (k : Nat)
    (db2 : DB) (ret : Option Nat)
    (h : insertar_invitado now db n a t c b k = Except.ok (db2, ret)) :
    ret = none ∧ db2.seq = db.seq + 1 ∧ db2.rows.length = db.rows.length + 1 ∧
    (db2.rows.getLast?).map Invitado.id = some (db.seq + 1) := by
  unfold insertar_invitado at h
  simp only [Except.ok.injEq, Prod.mk.injEq] at h
  obtain ⟨hdb, hret⟩ := h
  subst hdb
  refine ⟨hret.symm, rfl, by simp, ?_⟩
  simp [List.getLast?_concat]

/-- C4 witness: a concrete valid insert. -/
theorem insertar_asigna_id_sin_retorno_witness :
    (none : Option Nat) = none ∧
    (⟨[⟨1, "Luis", "Gomez", some "555", none, 1, 2, 4, 4⟩], 1⟩ : DB).seq =
      dbEmpty.seq + 1 ∧
    (⟨[⟨1, "Luis", "Gomez", some "555", none, 1, 2, 4, 4⟩], 1⟩ : DB).rows.length =
      dbEmpty.rows.length + 1 ∧
    ((⟨[⟨1, "Luis", "Gomez", some "555", none, 1, 2, 4, 4⟩], 1⟩ : DB).rows.getLast?).map
      Invitado.id = some (dbEmpty.seq + 1) :=
  insertar_asigna_id_sin_retorno 4 dbEmpty "Luis" "Gomez" (some "555") none true 2
    ⟨[⟨1, "Luis", "Gomez", some "555", none, 1, 2, 4, 4⟩], 1⟩ none (by decide)

/-- C5: contar_totales returns the count of all rows, the count of rows
with asistira = 1, and the sum of acompanantes over the rows with
asistira = 1; on the empty table it returns (0, 0, 0), and the components
are total naturals, never null. -/
theorem contar_totales_spec (db : DB) :
    contar_totales db =
      (db.rows.length,
       (db.rows.filter (fun r => r.asistira == 1)).length,
       ((db.rows.filter (fun r => r.asistira == 1)).map Invitado.acompanantes).sum) ∧
    contar_totales dbEmpty = (0, 0, 0) := by
  refine ⟨?_, rfl⟩
  simp only [contar_totales, sqlSum_getD, sum_case_count, sum_case_acomp]

/-- C6 counterexample: the filter text is passed to SQL LIKE, so an
underscore acts as a single-character wildcard rather than as a literal:
the filter made of one underscore selects the Ana row although an
underscore is not a substring of any of its four text fields. -/
theorem listar_wildcard_cex :
    rowAna ∈ listar_invitados dbAna "_" false ∧
    specRowMatch "_" rowAna = false := by
  exact ⟨by decide, by decide⟩

/-- C6 (amended): listar_invitados returns exactly the rows matched by the
SQL LIKE pattern percent-filter-percent built from the whitespace-stripped
filter text, where percent and underscore are wildcards and ASCII letters
compare case-insensitively, taken over first name, last name, phone and
email (an absent field never matches); the empty filter matches every row;
and with the confirmed-only flag the rows are further restricted to
asistira = 1. -/
theorem listar_invitados_mem_iff (db : DB) (f : String) (c : Bool) (r : Invitado) :
    (r ∈ listar_invitados db f c ↔
      r ∈ db.rows ∧ rowMatches f r = true ∧ (c = false ∨ r.asistira = 1)) ∧
    rowMatches "" r = true := by
  constructor
  · unfold listar_invitados
    rw [List.mem_insertionSort, List.mem_filter]
    constructor
    · rintro ⟨hm, hp⟩
      rw [Bool.and_eq_true] at hp
      refine ⟨hm, hp.1, ?_⟩
      cases c
      · exact Or.inl rfl
      · exact Or.inr (by simpa using hp.2)
    · rintro ⟨hm, h1, h2⟩
      refine ⟨hm, ?_⟩
      rw [Bool.and_eq_true]
      refine ⟨h1, ?_⟩
      cases c
      · simp
      · rcases h2 with h2 | h2
        · simp at h2
        · simp [h2]
  · unfold rowMatches likePattern fieldLike
    simp [likeMatch_percent]

/-- C7: the sequence produced by listar_invitados is sorted by apellidos
ascending, then nombre ascending, then id descending, so among rows with
equal names the newest (highest id) comes first and the order is a fixed
function of the state. -/
theorem listar_invitados_ordenado (db : DB) (f : String) (c : Bool) :
    (listar_invitados db f c).Pairwise (fun a b =>
      a.apellidos < b.apellidos ∨
        (a.apellidos = b.apellidos ∧
          (a.nombre < b.nombre ∨ (a.nombre = b.nombre ∧ b.id ≤ a.id)))) := by
  exact List.sorted_insertionSort rowLE
    (db.rows.filter (fun r => rowMatches f r && (!c || r.asistira == 1)))

/-- C8: an update issued through actualizar_invitado never sets updated_at
itself, so the trigger condition NEW.updated_at = OLD.updated_at holds and
the stored row carries the current time; across two successive updates at
non-decreasing instants the timestamp does not decrease; the trigger is
applied once per update (the write inside its body does not re-fire it,
recursive triggers being off); and a raw row update that does change
updated_at leaves the trigger unfired. -/
theorem updated_at_trigger_spec
    (now t2 : Nat) (db db2 : DB) (id_ : Nat) (r : Invitado)
    (n a : String) (t c : Option String) (b : Bool) (k : Nat)
    (n2 a2 : String) (u2 c2 : Option String) (b2 : Bool) (k2 : Nat)
    (f : Invitado → Invitado)
    (hmono : now ≤ t2) (hr : r ∈ db.rows) (hid : r.id = id_)
    (hq : actualizar_invitado now db id_ n a t c b k = Except.ok db2)
    (hf : (f r).updated_at ≠ r.updated_at) :
    sqlUpdateRow now r (setCampos n a t c b k) ∈ db2.rows ∧
    (sqlUpdateRow now r (setCampos n a t c b k)).updated_at = now ∧
    (sqlUpdateRow t2 (sqlUpdateRow now r (setCampos n a t c b k))
        (setCampos n2 a2 u2 c2 b2 k2)).updated_at = t2 ∧
    (sqlUpdateRow now r (setCampos n a t c b k)).updated_at ≤
      (sqlUpdateRow t2 (sqlUpdateRow now r (setCampos n a t c b k))
        (setCampos n2 a2 u2 c2 b2 k2)).updated_at ∧
    sqlUpdateRow now r f = f r := by
  obtain ⟨rows2, seq2⟩ := db2
  unfold actualizar_invitado at hq
  simp only [Except.ok.injEq, DB.mk.injEq] at hq
  obtain ⟨hrows, hseq⟩ := hq
  subst hrows
  refine ⟨List.mem_map.mpr ⟨r, hr, by rw [if_pos hid]⟩,
    sqlUpdateRow_setCampos_updated_at now n a t c b k r,
    sqlUpdateRow_setCampos_updated_at t2 n2 a2 u2 c2 b2 k2 _, ?_, ?_⟩
  · rw [sqlUpdateRow_setCampos_updated_at, sqlUpdateRow_setCampos_updated_at]
    exact hmono
  · unfold sqlUpdateRow
    rw [if_neg hf]

/-- C8 witness: a concrete pair of updates at instants 3 and 5, and a raw
update that does change updated_at. -/
theorem updated_at_trigger_spec_witness :
    sqlUpdateRow 3 rowAna (setCampos "Ana" "Gomez" none none true 2) ∈
      (⟨[⟨1, "Ana", "Gomez", none, none, 1, 2, 0, 3⟩], 1⟩ : DB).rows ∧
    (sqlUpdateRow 3 rowAna (setCampos "Ana" "Gomez" none none true 2)).updated_at = 3 ∧
    (sqlUpdateRow 5 (sqlUpdateRow 3 rowAna (setCampos "Ana" "Gomez" none none true 2))
        (setCampos "Ana" "Gomez" none none false 0)).updated_at = 5 ∧
    (sqlUpdateRow 3 rowAna (setCampos "Ana" "Gomez" none none true 2)).updated_at ≤
      (sqlUpdateRow 5 (sqlUpdateRow 3 rowAna (setCampos "Ana" "Gomez" none none true 2))
        (setCampos "Ana" "Gomez" none none false 0)).updated_at ∧
    sqlUpdateRow 3 rowAna (fun x => { x with updated_at := x.updated_at + 1 }) =
      (fun x => { x with updated_at := x.updated_at + 1 }) rowAna :=
  updated_at_trigger_spec 3 5 dbAna ⟨[⟨1, "Ana", "Gomez", none, none, 1, 2, 0, 3⟩], 1⟩
    1 rowAna "Ana" "Gomez" none none true 2 "Ana" "Gomez" none none false 0
    (fun x => { x with updated_at := x.updated_at + 1 })
    (by decide) (by decide) (by decide) (by decide) (by decide)

/-- C9 counterexample: a whitespace-only phone is truthy in Python, so it
is stripped to the empty string and stored as the empty string, not as
NULL, although it is empty after trimming. -/
theorem insertar_telefono_blanco_cex :
    insertar_invitado 0 dbEmpty "Ana" "Perez" (some " ") none false 0 =
      Except.ok (⟨[⟨1, "Ana", "Perez", some "", none, 0, 0, 0, 0⟩], 1⟩, none) := by
  decide

/-- C9 (amended): insertar_invitado stores the names stripped of
surrounding whitespace, and stores an optional field as NULL exactly when
the input is absent or exactly the empty string; a whitespace-only
optional field is stored as the empty string, because the code tests
truthiness before stripping. -/
theorem insertar_strip_null_campos
    (now : Nat) (db : DB) (n a : String) (t c : Option String) (b : Bool) (k : Nat)
    (db2 : DB) (ret : Option Nat)
    (h : insertar_invitado now db n a t c b k = Except.ok (db2, ret)) :
    (db2.rows.getLast?).map Invitado.nombre = some (pyStrip n) ∧
    (db2.rows.getLast?).map Invitado.apellidos = some (pyStrip a) ∧
    (db2.rows.getLast?).map Invitado.telefono = some (pyOptStrip t) ∧
    (db2.rows.getLast?).map Invitado.correo = some (pyOptStrip c) ∧
    (pyOptStrip t = none ↔ t = none ∨ t = some "") ∧
    (pyOptStrip c = none ↔ c = none ∨ c = some "") := by
  unfold insertar_invitado at h
  simp only [Except.ok.injEq, Prod.mk.injEq] at h
  obtain ⟨hdb, hret⟩ := h
  subst hdb
  refine ⟨?_, ?_, ?_, ?_, pyOptStrip_eq_none_iff t, pyOptStrip_eq_none_iff c⟩ <;>
    simp [List.getLast?_concat]

/-- C9 witness: a concrete insert with a whitespace-only phone and an
absent email. -/
theorem insertar_strip_null_campos_witness :
    ((⟨[⟨1, "Ana", "Lu", some "", none, 0, 0, 9, 9⟩], 1⟩ : DB).rows.getLast?).map
      Invitado.nombre = some (pyStrip " Ana ") ∧
    ((⟨[⟨1, "Ana", "Lu", some "", none, 0, 0, 9, 9⟩], 1⟩ : DB).rows.getLast?).map
      Invitado.apellidos = some (pyStrip "Lu") ∧
    ((⟨[⟨1, "Ana", "Lu", some "", none, 0, 0, 9, 9⟩], 1⟩ : DB).rows.getLast?).map
      Invitado.telefono = some (pyOptStrip (some " ")) ∧
    ((⟨[⟨1, "Ana", "Lu", some "", none, 0, 0, 9, 9⟩], 1⟩ : DB).rows.getLast?).map
      Invitado.correo = some (pyOptStrip none) ∧
    (pyOptStrip (some " ") = none ↔ (some " " : Option String) = none ∨ some " " = some "") ∧
    (pyOptStrip none = none ↔ (none : Option String) = none ∨ none = some "") :=
  insertar_strip_null_campos 9 dbEmpty " Ana " "Lu" (some " ") none false 0
    ⟨[⟨1, "Ana", "Lu", some "", none, 0, 0, 9, 9⟩], 1⟩ none (by decide)

/-- C10: for every update call, the table keeps its length, every row keeps
its id and its created_at, and every row whose id differs from the target
is completely unchanged. -/
theorem actualizar_frame_preserva
    (now : Nat) (db db2 : DB) (id_ : Nat) (n a : String) (t c : Option String)
    (b : Bool) (k : Nat) (i : Nat)
    (hq : actualizar_invitado now db id_ n a t c b k = Except.ok db2)
    (hi : i < db.rows.length) (hi2 : i < db2.rows.length) :
    db2.rows.length = db.rows.length ∧
    (db2.rows.get ⟨i, hi2⟩).id = (db.rows.get ⟨i, hi⟩).id ∧
    (db2.rows.get ⟨i, hi2⟩).created_at = (db.rows.get ⟨i, hi⟩).created_at ∧
    ((db.rows.get ⟨i, hi⟩).id = id_ ∨ db2.rows.get ⟨i, hi2⟩ = db.rows.get ⟨i, hi⟩) := by
  obtain ⟨rows2, seq2⟩ := db2
  unfold actualizar_invitado at hq
  simp only [Except.ok.injEq, DB.mk.injEq] at hq
  obtain ⟨hrows, hseq⟩ := hq
  subst hrows
  have e : (db.rows.map (fun r =>
      if r.id = id_ then sqlUpdateRow now r (setCampos n a t c b k) else r)).get ⟨i, hi2⟩ =
      if (db.rows.get ⟨i, hi⟩).id = id_ then
        sqlUpdateRow now (db.rows.get ⟨i, hi⟩) (setCampos n a t c b k)
      else db.rows.get ⟨i, hi⟩ := by
    simp
  by_cases hcase : (db.rows.get ⟨i, hi⟩).id = id_
  · rw [if_pos hcase] at e
    refine ⟨by simp, ?_, ?_, Or.inl hcase⟩
    · rw [e, sqlUpdateRow_setCampos_id]
    · rw [e, sqlUpdateRow_setCampos_created_at]
  · rw [if_neg hcase] at e
    exact ⟨by simp, by rw [e], by rw [e], Or.inr e⟩

/-- C10 witness: updating an absent id on a one-row table leaves the row
at index 0 unchanged. -/
theorem actualizar_frame_preserva_witness :
    dbAna.rows.length = dbAna.rows.length ∧
    (dbAna.rows.get ⟨0, by decide⟩).id = (dbAna.rows.get ⟨0, by decide⟩).id ∧
    (dbAna.rows.get ⟨0, by decide⟩).created_at =
      (dbAna.rows.get ⟨0, by decide⟩).created_at ∧
    ((dbAna.rows.get ⟨0, by decide⟩).id = 2 ∨
      dbAna.rows.get ⟨0, by decide⟩ = dbAna.rows.get ⟨0, by decide⟩) :=
  actualizar_frame_preserva 3 dbAna dbAna 2 "Zoe" "Q" none none false 0 0
    (by decide) (by decide) (by decide)

end Fiesta
